import Mathlib

/- Verification of the stablefluidr3f repository: a shallow embedding of the
   fluid-simulation store, control panel, error boundary and per-frame solver
   pipeline, with theorems settling the specification claims. -/

/- Section 1: the Zustand fluid parameter store (src store useFluidStore). -/

structure FluidState where
  resolution : ℚ
  dt : ℚ
  isBFECC : Bool
  mouseForce : ℚ
  cursorSize : ℚ
  viscosity : ℚ
  poissonIterations : ℚ
  viscousIterations : ℚ
  isBounce : Bool
deriving DecidableEq

/-- Zustand setter: set with a partial record merges exactly the named field. -/
def setResolution (v : ℚ) (s : FluidState) : FluidState := { s with resolution := v }

def setDt (v : ℚ) (s : FluidState) : FluidState := { s with dt := v }

def setIsBFECC (v : Bool) (s : FluidState) : FluidState := { s with isBFECC := v }

def setMouseForce (v : ℚ) (s : FluidState) : FluidState := { s with mouseForce := v }

def setCursorSize (v : ℚ) (s : FluidState) : FluidState := { s with cursorSize := v }

def setViscosity (v : ℚ) (s : FluidState) : FluidState := { s with viscosity := v }

def setPoissonIterations (v : ℚ) (s : FluidState) : FluidState := { s with poissonIterations := v }

def setViscousIterations (v : ℚ) (s : FluidState) : FluidState := { s with viscousIterations := v }

def setIsBounce (v : Bool) (s : FluidState) : FluidState := { s with isBounce := v }

/-- The default store state from useFluidStore (dt 0.014 = 7/500, resolution 0.4 = 2/5). -/
def initialFluid : FluidState :=
  { resolution := 2/5, dt := 7/500, isBFECC := true, mouseForce := 20, cursorSize := 100,
    viscosity := 30, poissonIterations := 32, viscousIterations := 32, isBounce := true }

/-- A numeric Leva control of the ControlPanel: its min, max and step bounds. -/
structure NumControl where
  lo : ℚ
  hi : ℚ
  step : ℚ
deriving DecidableEq

def panelResolution : NumControl := { lo := 1/10, hi := 1, step := 1/10 }

def panelDt : NumControl := { lo := 1/1000, hi := 1/10, step := 1/1000 }

def panelMouseForce : NumControl := { lo := 0, hi := 100, step := 1 }

def panelCursorSize : NumControl := { lo := 10, hi := 500, step := 10 }

def panelViscosity : NumControl := { lo := 0, hi := 100, step := 1 }

def panelPoissonIterations : NumControl := { lo := 1, hi := 100, step := 1 }

def panelViscousIterations : NumControl := { lo := 1, hi := 100, step := 1 }

/- Section 2: stages, buffers and failure records of the pipeline. -/

/-- The seven shader passes of the FluidSimulation component in src/.setup,
    in the order they appear: advection, external force, viscous, divergence,
    poisson (pressure solve), pressure (projection), color. -/
inductive Stage where
  | advection
  | force
  | viscous
  | divergence
  | poisson
  | pressure
  | color
deriving DecidableEq, Fintype

/-- The physical render targets of the double-buffered field pairs. -/
inductive BufferId where
  | vel0
  | vel1
  | visc0
  | visc1
  | divB
  | prs0
  | prs1
  | display
deriving DecidableEq, Fintype

/-- Buffers each stage reads. Endpoints come from src/.setup (advection src
    fbo_vel_0, force writing in place into fbo_vel_1 per the spec force-stage
    input being the velocity write field, viscous src fbo_vel_1, color src
    fbo_vel_0); the viscous, divergence and pressure pair wiring is
    modelled from the spec sections 4.4 to 4.8. -/
def stageReads : Stage → List BufferId
  | .advection => [.vel0]
  | .force => [.vel1]
  | .viscous => [.vel1, .visc0]
  | .divergence => [.visc1]
  | .poisson => [.divB, .prs0]
  | .pressure => [.visc1, .prs1]
  | .color => [.vel0]

/-- Buffers each stage writes; same provenance as stageReads. -/
def stageWrites : Stage → List BufferId
  | .advection => [.vel1]
  | .force => [.vel1]
  | .viscous => [.visc1]
  | .divergence => [.divB]
  | .poisson => [.prs1]
  | .pressure => [.vel0]
  | .color => [.display]

/-- A stage touches no buffer both as input and as output. -/
abbrev disjointRW (st : Stage) : Prop :=
  ∀ b ∈ stageReads st, b ∉ stageWrites st

def stageName : Stage → String
  | .advection => "advection"
  | .force => "externalForce"
  | .viscous => "viscous"
  | .divergence => "divergence"
  | .poisson => "poisson"
  | .pressure => "pressure"
  | .color => "color"

/-- Modelled from the spec: a failure that reaches the hosting shell carries
    the failing stage and the resource involved (the stage error values of the
    missing Effect.tsx are not in src). -/
structure StageFailure where
  stage : Stage
  resource : String
  message : String

/-- What the shell logs for a failure: the stage name and the resource. -/
def failureLog (f : StageFailure) : String × String := (stageName f.stage, f.resource)

def demoResource : String := "velocity render target"

def demoMessage : String := "device lost"

def demoFailure : StageFailure :=
  { stage := Stage.advection, resource := demoResource, message := demoMessage }

/- Section 3: the ErrorBoundary component (src ErrorBoundary.tsx). -/

/-- React state of the ErrorBoundary class: hasError plus the optional caught
    error, kept as its message string. -/
structure EBState where
  hasError : Bool
  error : Option String
deriving DecidableEq

/-- The only recovery action the fallback card offers: a full page reload. -/
inductive RecoveryAction where
  | reloadPage
deriving DecidableEq

/-- What render returns: the children, or the NonIdealState fallback card with
    a description and a recovery action. -/
inductive RenderResult where
  | children
  | fallback (description : String) (action : RecoveryAction)
deriving DecidableEq

/-- Events the boundary processes: getDerivedStateFromError on a caught error
    (carrying its message when one exists), or a plain re-render. -/
inductive EBEvent where
  | catchError (msg : Option String)
  | rerender

def defaultErrMsg : String := "An error occurred in the fluid simulation."

/-- The description shown on the card: the error message via optional chaining,
    with the logical-or fallback when it is absent or empty. -/
def describe : Option String → String
  | none => defaultErrMsg
  | some m => if m = "" then defaultErrMsg else m

/-- State transition: getDerivedStateFromError returns hasError true together
    with the caught error; a re-render changes nothing. -/
def ebStep (s : EBState) (e : EBEvent) : EBState :=
  match e with
  | .catchError m => { hasError := true, error := m }
  | .rerender => s

/-- The render method: fallback card when hasError, the children otherwise. -/
def ebRender (s : EBState) : RenderResult :=
  if s.hasError then RenderResult.fallback (describe s.error) RecoveryAction.reloadPage
  else RenderResult.children

def boomMsg : String := "boom"

def ebCaught : EBState := { hasError := true, error := some boomMsg }

/- Section 4: the numeric solver pipeline. Modelled from the spec sections 4.2
   to 4.8 (the shader sources of Effect.tsx are not in src); grid fields are
   rational-valued functions on integer texel coordinates. -/

abbrev VF : Type := ℤ → ℤ → ℚ × ℚ

abbrev SF : Type := ℤ → ℤ → ℚ

def vzero : ℚ × ℚ := (0, 0)

def vadd (a b : ℚ × ℚ) : ℚ × ℚ := (a.1 + b.1, a.2 + b.2)

def vsub (a b : ℚ × ℚ) : ℚ × ℚ := (a.1 - b.1, a.2 - b.2)

def vneg (a : ℚ × ℚ) : ℚ × ℚ := (-a.1, -a.2)

def vsmul (c : ℚ) (a : ℚ × ℚ) : ℚ × ℚ := (c * a.1, c * a.2)

/-- Pointer state: current and previous normalized position. An inactive
    pointer is the absence of this record. -/
structure PointerState where
  pos : ℚ × ℚ
  prev : ℚ × ℚ

/-- The per-frame parameter snapshot the stages read. -/
structure SimConfig where
  gridW : ℤ
  gridH : ℤ
  dt : ℚ
  csx : ℚ
  csy : ℚ
  hsq : ℚ
  viscosity : ℚ
  mouseForce : ℚ
  cursorSize : ℚ
  poissonIterations : ℕ
  viscousIterations : ℕ
  isBFECC : Bool
  isBounce : Bool
  pointer : Option PointerState

def clampIdx (n i : ℤ) : ℤ := max 0 (min i (n - 1))

def mirrorIdx (n i : ℤ) : ℤ :=
  if i < 0 then -i - 1 else if n ≤ i then 2 * n - 1 - i else i

/-- Boundary policy at a sample index: mirror when bouncing, clamp-to-edge
    otherwise. -/
def boundIdx (cfg : SimConfig) (n i : ℤ) : ℤ :=
  if cfg.isBounce then clampIdx n (mirrorIdx n i) else clampIdx n i

def sampleV (cfg : SimConfig) (f : VF) (i j : ℤ) : ℚ × ℚ :=
  f (boundIdx cfg cfg.gridW i) (boundIdx cfg cfg.gridH j)

def sampleS (cfg : SimConfig) (f : SF) (i j : ℤ) : ℚ :=
  f (boundIdx cfg cfg.gridW i) (boundIdx cfg cfg.gridH j)

def clampQ (lo hi x : ℚ) : ℚ := max lo (min hi x)

def min4 (a b c d : ℚ) : ℚ := min a (min b (min c d))

def max4 (a b c d : ℚ) : ℚ := max a (max b (max c d))

/-- Bilinear interpolation of a field at a rational position, boundary policy
    applied at each corner sample. -/
def bilinearV (cfg : SimConfig) (f : VF) (x y : ℚ) : ℚ × ℚ :=
  let i0 : ℤ := Int.floor x
  let j0 : ℤ := Int.floor y
  let fx : ℚ := x - (i0 : ℚ)
  let fy : ℚ := y - (j0 : ℚ)
  vadd (vadd (vsmul ((1 - fx) * (1 - fy)) (sampleV cfg f i0 j0))
             (vsmul (fx * (1 - fy)) (sampleV cfg f (i0 + 1) j0)))
       (vadd (vsmul ((1 - fx) * fy) (sampleV cfg f i0 (j0 + 1)))
             (vsmul (fx * fy) (sampleV cfg f (i0 + 1) (j0 + 1))))

/-- The backward-traced source position of a texel under the given velocity,
    sign 1 for backtracing and sign -1 for the BFECC reverse pass. -/
def backPos (cfg : SimConfig) (vel : VF) (sgn : ℚ) (i j : ℤ) : ℚ × ℚ :=
  ((i : ℚ) - sgn * (vel i j).1 * cfg.dt * cfg.csx,
   (j : ℚ) - sgn * (vel i j).2 * cfg.dt * cfg.csy)

def advectOnce (cfg : SimConfig) (vel : VF) (sgn : ℚ) (f : VF) : VF :=
  fun i j => bilinearV cfg f (backPos cfg vel sgn i j).1 (backPos cfg vel sgn i j).2

/-- Modelled from the spec: semi-Lagrangian advection, optionally refined by
    the three-pass BFECC correction with the mandatory neighborhood min/max
    clamp (exact shader formula absent from src). -/
def advectField (cfg : SimConfig) (v : VF) : VF :=
  let fwd := advectOnce cfg v 1 v
  if cfg.isBFECC then
    fun i j =>
      let back := advectOnce cfg v (-1) fwd
      let corrected := vadd (fwd i j) (vsmul (1/2) (vsub (v i j) (back i j)))
      let p := backPos cfg v 1 i j
      let i0 : ℤ := Int.floor p.1
      let j0 : ℤ := Int.floor p.2
      let s00 := sampleV cfg v i0 j0
      let s10 := sampleV cfg v (i0 + 1) j0
      let s01 := sampleV cfg v i0 (j0 + 1)
      let s11 := sampleV cfg v (i0 + 1) (j0 + 1)
      (clampQ (min4 s00.1 s10.1 s01.1 s11.1) (max4 s00.1 s10.1 s01.1 s11.1) corrected.1,
       clampQ (min4 s00.2 s10.2 s01.2 s11.2) (max4 s00.2 s10.2 s01.2 s11.2) corrected.2)
  else fwd

/-- Modelled from the spec: force injection adds an impulse proportional to the
    pointer displacement and mouseForce with a smooth radial falloff vanishing
    at the cursor radius; an inactive pointer makes the stage the identity. -/
def applyExternalForce (cfg : SimConfig) (v : VF) : VF :=
  match cfg.pointer with
  | none => v
  | some pt =>
    fun i j =>
      let dx := (i : ℚ) - pt.pos.1
      let dy := (j : ℚ) - pt.pos.2
      let sq := dx * dx + dy * dy
      let r2 := cfg.cursorSize * cfg.cursorSize
      let w := if sq < r2 then ((r2 - sq) / r2) * ((r2 - sq) / r2) else 0
      vadd (v i j) (vsmul (cfg.mouseForce * w) (vsub pt.pos pt.prev))

/-- A four-neighbor velocity sample obeying the boundary policy: in-grid reads
    the neighbor, bounce negates the center at a wall, non-bounce clamps. -/
def neighborVel (cfg : SimConfig) (v : VF) (i j i2 j2 : ℤ) : ℚ × ℚ :=
  if 0 ≤ i2 ∧ i2 < cfg.gridW ∧ 0 ≤ j2 ∧ j2 < cfg.gridH then v i2 j2
  else if cfg.isBounce then vneg (v i j)
  else v (clampIdx cfg.gridW i2) (clampIdx cfg.gridH j2)

/-- One Jacobi relaxation pass of implicit viscous diffusion, weighted by
    viscosity and dt against the pre-diffusion field v0. -/
def viscStep (cfg : SimConfig) (v0 : VF) (v : VF) : VF :=
  fun i j =>
    let nsum := vadd (vadd (neighborVel cfg v i j (i - 1) j) (neighborVel cfg v i j (i + 1) j))
                     (vadd (neighborVel cfg v i j i (j - 1)) (neighborVel cfg v i j i (j + 1)))
    vsmul (1 / (1 + 4 * cfg.viscosity * cfg.dt))
      (vadd (v0 i j) (vsmul (cfg.viscosity * cfg.dt) nsum))

/-- Modelled from the spec: exactly viscousIterations Jacobi passes. -/
def diffuseVelocity (cfg : SimConfig) (v : VF) : VF :=
  (viscStep cfg v)^[cfg.viscousIterations] v

/-- Modelled from the spec: one-pass central-difference divergence scaled by
    cellScale, neighbors obeying the boundary policy. -/
def computeDivergence (cfg : SimConfig) (v : VF) : SF :=
  fun i j =>
    let r := neighborVel cfg v i j (i + 1) j
    let l := neighborVel cfg v i j (i - 1) j
    let t := neighborVel cfg v i j i (j + 1)
    let b := neighborVel cfg v i j i (j - 1)
    (cfg.csx * (r.1 - l.1) + cfg.csy * (t.2 - b.2)) / 2

/-- One Jacobi pass of the discrete Poisson solve: the neighbor average minus
    the local divergence scaled by the squared grid spacing. -/
def jacobiPressure (cfg : SimConfig) (d : SF) (p : SF) : SF :=
  fun i j =>
    (sampleS cfg p (i - 1) j + sampleS cfg p (i + 1) j +
     sampleS cfg p i (j - 1) + sampleS cfg p i (j + 1) - cfg.hsq * d i j) / 4

/-- Modelled from the spec: the pressure stage runs its pass count by plain
    structural recursion with no convergence test, from the given initial
    guess. -/
def solvePressure (cfg : SimConfig) (d : SF) : ℕ → SF → SF
  | 0, p => p
  | n + 1, p => solvePressure cfg d n (jacobiPressure cfg d p)

/-- The list of all intermediate pressure fields the solve produces, used to
    count the passes actually run. -/
def poissonTrace (cfg : SimConfig) (d : SF) : ℕ → SF → List SF
  | 0, p => [p]
  | n + 1, p => p :: poissonTrace cfg d n (jacobiPressure cfg d p)

/-- Modelled from the spec: projection subtracts the discrete pressure gradient
    from the velocity, scaled by cellScale. -/
def projectVelocity (cfg : SimConfig) (p : SF) (v : VF) : VF :=
  fun i j =>
    let gx := cfg.csx * (sampleS cfg p (i + 1) j - sampleS cfg p (i - 1) j) / 2
    let gy := cfg.csy * (sampleS cfg p i (j + 1) - sampleS cfg p i (j - 1)) / 2
    vsub (v i j) (gx, gy)

def clamp01 (x : ℚ) : ℚ := max 0 (min 1 x)

/-- Modelled from the spec: the color stage maps velocity to a displayable
    value clamped per component; it feeds nothing back into the simulation. -/
def renderColor (_cfg : SimConfig) (v : VF) : VF :=
  fun i j => (clamp01 (v i j).1, clamp01 (v i j).2)

/-- The per-frame simulation state: the velocity, pressure and divergence
    fields plus the presented image. -/
@[ext]
structure FrameState where
  vel : VF
  pressure : SF
  divg : SF
  image : VF

/-- One stage applied to the frame state. -/
def execStage (cfg : SimConfig) (st : Stage) (s : FrameState) : FrameState :=
  match st with
  | .advection => { s with vel := advectField cfg s.vel }
  | .force => { s with vel := applyExternalForce cfg s.vel }
  | .viscous => { s with vel := diffuseVelocity cfg s.vel }
  | .divergence => { s with divg := computeDivergence cfg s.vel }
  | .poisson => { s with pressure := solvePressure cfg s.divg cfg.poissonIterations s.pressure }
  | .pressure => { s with vel := projectVelocity cfg s.pressure s.vel }
  | .color => { s with image := renderColor cfg s.vel }

/-- The fixed stage schedule, in the order the passes appear in the
    FluidSimulation component of src/.setup. -/
def stageOrder : List Stage :=
  [Stage.advection, Stage.force, Stage.viscous, Stage.divergence,
   Stage.poisson, Stage.pressure, Stage.color]

/-- One frame: the stages run strictly sequentially in schedule order, each
    consuming the full state the previous stage produced. -/
def frameStep (cfg : SimConfig) (s : FrameState) : FrameState :=
  stageOrder.foldl (fun t st => execStage cfg st t) s

def zeroVF : VF := fun _ _ => vzero

def zeroSF : SF := fun _ _ => 0

def zeroState : FrameState :=
  { vel := zeroVF, pressure := zeroSF, divg := zeroSF, image := zeroVF }

/-- Modelled from the spec: a frame run that can fail at a stage (the failAt
    oracle stands for a device error); it aborts at the first failing stage
    and reports that stage, committing nothing. -/
def runStages (cfg : SimConfig) (failAt : Stage → Bool) :
    List Stage → FrameState → Except Stage FrameState
  | [], s => Except.ok s
  | st :: rest, s =>
    if failAt st then Except.error st
    else runStages cfg failAt rest (execStage cfg st s)

/-- Modelled from the spec: one animation tick commits the new frame only when
    every stage succeeded; otherwise the previous committed state stays
    authoritative. -/
def tick (cfg : SimConfig) (failAt : Stage → Bool) (committed : FrameState) : FrameState :=
  match runStages cfg failAt stageOrder committed with
  | Except.ok s2 => s2
  | Except.error _ => committed

/-- A small concrete configuration on a 2 by 2 grid used for evaluation. -/
def demoCfg : SimConfig :=
  { gridW := 2, gridH := 2, dt := 7/500, csx := 1/2, csy := 1/2, hsq := 1,
    viscosity := 0, mouseForce := 0, cursorSize := 1, poissonIterations := 1,
    viscousIterations := 0, isBFECC := false, isBounce := false, pointer := none }

/-- A pressure field that is 1 at the origin texel and 0 elsewhere. -/
def demoP : SF := fun i j => if i = 0 ∧ j = 0 then 1 else 0

/-- A state carrying a nonzero previous-frame pressure over zero velocity. -/
def demoWarm : FrameState :=
  { vel := zeroVF, pressure := demoP, divg := zeroSF, image := zeroVF }

def failViscous : Stage → Bool :=
  fun st => match st with
  | Stage.viscous => true
  | _ => false

def failNone : Stage → Bool := fun _ => false

/- Section 5: the frozen FBO sizing of the FluidSimulation component in
   src/.setup: screenWidth and screenHeight are captured once with useState at
   mount, resolution is the literal 0.4, and the render targets are memoized
   with empty dependency lists, so the dimensions depend only on the mount-time
   viewport and are never recomputed. -/

def setupResolution : ℚ := 2/5

/-- FBO width as the component computes it: mount-time width times the literal
    resolution; the current viewport width is never consulted again. -/
def fboVelWidth (mountW _currentW : ℚ) : ℚ := mountW * setupResolution

/-- FBO height, same freezing behavior as fboVelWidth. -/
def fboVelHeight (mountH _currentH : ℚ) : ℚ := mountH * setupResolution

/- Section 6: helper lemmas. -/

theorem vsmul_vzero (c : ℚ) : vsmul c vzero = vzero := by
  simp [vsmul, vzero]

theorem vadd_vzero_vzero : vadd vzero vzero = vzero := by
  simp [vadd, vzero]

theorem bilinearV_zeroPt (cfg : SimConfig) (f : VF) (hf : ∀ a b, f a b = vzero)
    (x y : ℚ) : bilinearV cfg f x y = vzero := by
  simp [bilinearV, sampleV, hf, vsmul_vzero, vadd_vzero_vzero]

theorem advectOnce_zeroPt (cfg : SimConfig) (vel : VF) (sgn : ℚ) (f : VF)
    (hf : ∀ a b, f a b = vzero) (i j : ℤ) : advectOnce cfg vel sgn f i j = vzero := by
  simp [advectOnce, bilinearV_zeroPt cfg f hf]

theorem advectField_zero (cfg : SimConfig) : advectField cfg zeroVF = zeroVF := by
  funext i j
  have hz : ∀ a b, zeroVF a b = vzero := fun _ _ => rfl
  have hfwd : ∀ a b, advectOnce cfg zeroVF 1 zeroVF a b = vzero :=
    advectOnce_zeroPt cfg zeroVF 1 zeroVF hz
  by_cases hB : cfg.isBFECC
  · have hback : ∀ a b,
        advectOnce cfg zeroVF (-1) (advectOnce cfg zeroVF 1 zeroVF) a b = vzero :=
      advectOnce_zeroPt cfg zeroVF (-1) _ hfwd
    simp only [advectField, hB, if_true]
    simp [hfwd, hback, hz, sampleV, vadd, vsub, vsmul, vzero, clampQ, min4, max4, zeroVF]
  · simp only [advectField, hB, if_false, Bool.false_eq_true]
    exact hfwd i j

theorem applyExternalForce_none (cfg : SimConfig) (h : cfg.pointer = none) (v : VF) :
    applyExternalForce cfg v = v := by
  simp [applyExternalForce, h]

theorem neighborVel_zero (cfg : SimConfig) (i j a b : ℤ) :
    neighborVel cfg zeroVF i j a b = vzero := by
  unfold neighborVel
  split
  · rfl
  · split
    · simp [vneg, zeroVF, vzero]
    · rfl

theorem viscStep_zero (cfg : SimConfig) : viscStep cfg zeroVF zeroVF = zeroVF := by
  funext i j
  simp [viscStep, neighborVel_zero, vadd, vsmul, vzero, zeroVF]

theorem diffuseVelocity_zero (cfg : SimConfig) : diffuseVelocity cfg zeroVF = zeroVF := by
  unfold diffuseVelocity
  exact Function.iterate_fixed (viscStep_zero cfg) cfg.viscousIterations

theorem computeDivergence_zero (cfg : SimConfig) : computeDivergence cfg zeroVF = zeroSF := by
  funext i j
  simp [computeDivergence, neighborVel_zero, vzero, zeroSF]

theorem jacobiPressure_zero (cfg : SimConfig) :
    jacobiPressure cfg zeroSF zeroSF = zeroSF := by
  funext i j
  simp [jacobiPressure, sampleS, zeroSF]

theorem solvePressure_zero (cfg : SimConfig) (n : ℕ) :
    solvePressure cfg zeroSF n zeroSF = zeroSF := by
  induction n with
  | zero => rfl
  | succ k ih =>
    show solvePressure cfg zeroSF k (jacobiPressure cfg zeroSF zeroSF) = zeroSF
    rw [jacobiPressure_zero]
    exact ih

theorem projectVelocity_zero (cfg : SimConfig) :
    projectVelocity cfg zeroSF zeroVF = zeroVF := by
  funext i j
  simp [projectVelocity, sampleS, zeroSF, zeroVF, vsub, vzero]

theorem renderColor_zero (cfg : SimConfig) : renderColor cfg zeroVF = zeroVF := by
  funext i j
  simp [renderColor, zeroVF, clamp01, vzero]

theorem frameStep_zero (cfg : SimConfig) (h : cfg.pointer = none) :
    frameStep cfg zeroState = zeroState := by
  have e1 : execStage cfg Stage.advection zeroState = zeroState := by
    simp [execStage, zeroState, advectField_zero]
  have e2 : execStage cfg Stage.force zeroState = zeroState := by
    simp [execStage, zeroState, applyExternalForce_none cfg h]
  have e3 : execStage cfg Stage.viscous zeroState = zeroState := by
    simp [execStage, zeroState, diffuseVelocity_zero]
  have e4 : execStage cfg Stage.divergence zeroState = zeroState := by
    simp [execStage, zeroState, computeDivergence_zero]
  have e5 : execStage cfg Stage.poisson zeroState = zeroState := by
    simp [execStage, zeroState, solvePressure_zero]
  have e6 : execStage cfg Stage.pressure zeroState = zeroState := by
    simp [execStage, zeroState, projectVelocity_zero]
  have e7 : execStage cfg Stage.color zeroState = zeroState := by
    simp [execStage, zeroState, renderColor_zero]
  show List.foldl (fun t st => execStage cfg st t) zeroState stageOrder = zeroState
  simp only [stageOrder, List.foldl, e1, e2, e3, e4, e5, e6, e7]

theorem ebStep_pres (s : EBState) (e : EBEvent) (h : s.hasError = true) :
    (ebStep s e).hasError = true := by
  cases e with
  | catchError m => rfl
  | rerender => exact h

theorem ebFoldl_pres (evs : List EBEvent) (s : EBState) (h : s.hasError = true) :
    (evs.foldl ebStep s).hasError = true := by
  induction evs generalizing s with
  | nil => exact h
  | cons e rest ih => exact ih (ebStep s e) (ebStep_pres s e h)

theorem stageName_inj (a b : Stage) (h : stageName a = stageName b) : a = b := by
  revert h
  revert a b
  decide

/- Section 7: the claim theorems. -/

/-- C1: every frame runs the stages in the fixed order advection, external
    force, viscous diffusion, divergence, pressure (Poisson) solve, projection,
    color; the run is the strictly sequential fold of that schedule, so each
    stage starts from the complete state the previous stage produced and no two
    stages are reordered or fused. -/
theorem frame_stage_order :
    stageOrder = [Stage.advection, Stage.force, Stage.viscous, Stage.divergence,
      Stage.poisson, Stage.pressure, Stage.color]
    ∧ (∀ (cfg : SimConfig) (s : FrameState),
        frameStep cfg s =
          execStage cfg Stage.color (execStage cfg Stage.pressure (execStage cfg Stage.poisson
            (execStage cfg Stage.divergence (execStage cfg Stage.viscous
              (execStage cfg Stage.force (execStage cfg Stage.advection s)))))))
    ∧ (∀ (cfg : SimConfig) (s : FrameState) (st : Stage) (rest : List Stage),
        List.foldl (fun t u => execStage cfg u t) s (st :: rest)
          = List.foldl (fun t u => execStage cfg u t) (execStage cfg st s) rest) :=
  ⟨rfl, fun _ _ => rfl, fun _ _ _ _ => rfl⟩

/-- C9: each store setter replaces exactly its own named field with the given
    value and leaves the other eight parameter fields unchanged. -/
theorem setters_update_only_own_field (s : FluidState) (q : ℚ) (b : Bool) :
    ((setResolution q s).resolution = q ∧ (setResolution q s).dt = s.dt ∧
     (setResolution q s).isBFECC = s.isBFECC ∧ (setResolution q s).mouseForce = s.mouseForce ∧
     (setResolution q s).cursorSize = s.cursorSize ∧ (setResolution q s).viscosity = s.viscosity ∧
     (setResolution q s).poissonIterations = s.poissonIterations ∧
     (setResolution q s).viscousIterations = s.viscousIterations ∧
     (setResolution q s).isBounce = s.isBounce)
    ∧ ((setDt q s).dt = q ∧ (setDt q s).resolution = s.resolution ∧
       (setDt q s).isBFECC = s.isBFECC ∧ (setDt q s).mouseForce = s.mouseForce ∧
       (setDt q s).cursorSize = s.cursorSize ∧ (setDt q s).viscosity = s.viscosity ∧
       (setDt q s).poissonIterations = s.poissonIterations ∧
       (setDt q s).viscousIterations = s.viscousIterations ∧ (setDt q s).isBounce = s.isBounce)
    ∧ ((setIsBFECC b s).isBFECC = b ∧ (setIsBFECC b s).resolution = s.resolution ∧
       (setIsBFECC b s).dt = s.dt ∧ (setIsBFECC b s).mouseForce = s.mouseForce ∧
       (setIsBFECC b s).cursorSize = s.cursorSize ∧ (setIsBFECC b s).viscosity = s.viscosity ∧
       (setIsBFECC b s).poissonIterations = s.poissonIterations ∧
       (setIsBFECC b s).viscousIterations = s.viscousIterations ∧
       (setIsBFECC b s).isBounce = s.isBounce)
    ∧ ((setMouseForce q s).mouseForce = q ∧ (setMouseForce q s).resolution = s.resolution ∧
       (setMouseForce q s).dt = s.dt ∧ (setMouseForce q s).isBFECC = s.isBFECC ∧
       (setMouseForce q s).cursorSize = s.cursorSize ∧ (setMouseForce q s).viscosity = s.viscosity ∧
       (setMouseForce q s).poissonIterations = s.poissonIterations ∧
       (setMouseForce q s).viscousIterations = s.viscousIterations ∧
       (setMouseForce q s).isBounce = s.isBounce)
    ∧ ((setCursorSize q s).cursorSize = q ∧ (setCursorSize q s).resolution = s.resolution ∧
       (setCursorSize q s).dt = s.dt ∧ (setCursorSize q s).isBFECC = s.isBFECC ∧
       (setCursorSize q s).mouseForce = s.mouseForce ∧ (setCursorSize q s).viscosity = s.viscosity ∧
       (setCursorSize q s).poissonIterations = s.poissonIterations ∧
       (setCursorSize q s).viscousIterations = s.viscousIterations ∧
       (setCursorSize q s).isBounce = s.isBounce)
    ∧ ((setViscosity q s).viscosity = q ∧ (setViscosity q s).resolution = s.resolution ∧
       (setViscosity q s).dt = s.dt ∧ (setViscosity q s).isBFECC = s.isBFECC ∧
       (setViscosity q s).mouseForce = s.mouseForce ∧ (setViscosity q s).cursorSize = s.cursorSize ∧
       (setViscosity q s).poissonIterations = s.poissonIterations ∧
       (setViscosity q s).viscousIterations = s.viscousIterations ∧
       (setViscosity q s).isBounce = s.isBounce)
    ∧ ((setPoissonIterations q s).poissonIterations = q ∧
       (setPoissonIterations q s).resolution = s.resolution ∧ (setPoissonIterations q s).dt = s.dt ∧
       (setPoissonIterations q s).isBFECC = s.isBFECC ∧
       (setPoissonIterations q s).mouseForce = s.mouseForce ∧
       (setPoissonIterations q s).cursorSize = s.cursorSize ∧
       (setPoissonIterations q s).viscosity = s.viscosity ∧
       (setPoissonIterations q s).viscousIterations = s.viscousIterations ∧
       (setPoissonIterations q s).isBounce = s.isBounce)
    ∧ ((setViscousIterations q s).viscousIterations = q ∧
       (setViscousIterations q s).resolution = s.resolution ∧ (setViscousIterations q s).dt = s.dt ∧
       (setViscousIterations q s).isBFECC = s.isBFECC ∧
       (setViscousIterations q s).mouseForce = s.mouseForce ∧
       (setViscousIterations q s).cursorSize = s.cursorSize ∧
       (setViscousIterations q s).viscosity = s.viscosity ∧
       (setViscousIterations q s).poissonIterations = s.poissonIterations ∧
       (setViscousIterations q s).isBounce = s.isBounce)
    ∧ ((setIsBounce b s).isBounce = b ∧ (setIsBounce b s).resolution = s.resolution ∧
       (setIsBounce b s).dt = s.dt ∧ (setIsBounce b s).isBFECC = s.isBFECC ∧
       (setIsBounce b s).mouseForce = s.mouseForce ∧ (setIsBounce b s).cursorSize = s.cursorSize ∧
       (setIsBounce b s).viscosity = s.viscosity ∧
       (setIsBounce b s).poissonIterations = s.poissonIterations ∧
       (setIsBounce b s).viscousIterations = s.viscousIterations) := by
  simp [setResolution, setDt, setIsBFECC, setMouseForce, setCursorSize, setViscosity,
    setPoissonIterations, setViscousIterations, setIsBounce]

/-- C10: once the ErrorBoundary has caught an error its hasError flag stays
    true under every later event; every later render returns the fallback card
    (describing the caught message, or the default text when absent) and never
    the children, and the only recovery action that exists is a page reload. -/
theorem errorBoundary_latched (s : EBState) (h : s.hasError = true) (evs : List EBEvent) :
    ((evs.foldl ebStep s).hasError = true)
    ∧ ebRender (evs.foldl ebStep s)
        = RenderResult.fallback (describe (evs.foldl ebStep s).error) RecoveryAction.reloadPage
    ∧ ebRender (evs.foldl ebStep s) ≠ RenderResult.children
    ∧ (∀ m : String, m ≠ "" → describe (some m) = m)
    ∧ describe none = defaultErrMsg
    ∧ (∀ a : RecoveryAction, a = RecoveryAction.reloadPage) := by
  have hh := ebFoldl_pres evs s h
  refine ⟨hh, by simp [ebRender, hh], by simp [ebRender, hh], ?_, rfl, ?_⟩
  · intro m hm
    simp [describe, hm]
  · intro a
    cases a
    rfl

/-- Witness for C10 at a concrete latched state and a concrete event list. -/
theorem errorBoundary_latched_w :
    (([EBEvent.rerender].foldl ebStep ebCaught).hasError = true)
    ∧ ebRender ([EBEvent.rerender].foldl ebStep ebCaught)
        = RenderResult.fallback (describe ([EBEvent.rerender].foldl ebStep ebCaught).error)
            RecoveryAction.reloadPage
    ∧ describe (some boomMsg) = boomMsg := by
  have h := errorBoundary_latched ebCaught rfl [EBEvent.rerender]
  exact ⟨h.1, h.2.1, h.2.2.2.1 boomMsg (by decide)⟩

/-- C8: a failure record determines the failing stage and the resource involved
    (its log identifies both), and the shell reacts to a caught failure by
    rendering the fallback card with the reload recovery action instead of
    retrying the children. -/
theorem failures_carry_context :
    (∀ f g : StageFailure, failureLog f = failureLog g →
      f.stage = g.stage ∧ f.resource = g.resource)
    ∧ (∀ (f : StageFailure) (s : EBState),
        ebRender (ebStep s (EBEvent.catchError (some f.message)))
          = RenderResult.fallback (describe (some f.message)) RecoveryAction.reloadPage
        ∧ ebRender (ebStep s (EBEvent.catchError (some f.message))) ≠ RenderResult.children) := by
  constructor
  · intro f g hfg
    have h1 : stageName f.stage = stageName g.stage := congrArg Prod.fst hfg
    have h2 : f.resource = g.resource := congrArg Prod.snd hfg
    exact ⟨stageName_inj f.stage g.stage h1, h2⟩
  · intro f s
    exact ⟨by simp [ebRender, ebStep], by simp [ebRender, ebStep]⟩

/-- Witness for C8 at a concrete failure and shell state. -/
theorem failures_carry_context_w :
    (demoFailure.stage = demoFailure.stage ∧ demoFailure.resource = demoFailure.resource)
    ∧ ebRender (ebStep { hasError := false, error := none }
        (EBEvent.catchError (some demoFailure.message)))
        = RenderResult.fallback (describe (some demoFailure.message)) RecoveryAction.reloadPage :=
  ⟨failures_carry_context.1 demoFailure demoFailure rfl,
   (failures_carry_context.2 demoFailure { hasError := false, error := none }).1⟩

theorem poissonTrace_length (cfg : SimConfig) (d : SF) :
    ∀ (n : ℕ) (p : SF), (poissonTrace cfg d n p).length = n + 1 := by
  intro n
  induction n with
  | zero => intro p; rfl
  | succ k ih => intro p; simp [poissonTrace, ih]

theorem solvePressure_iterate (cfg : SimConfig) (d : SF) :
    ∀ (n : ℕ) (p : SF), solvePressure cfg d n p = (jacobiPressure cfg d)^[n] p := by
  intro n
  induction n with
  | zero => intro p; rfl
  | succ k ih =>
    intro p
    show solvePressure cfg d k (jacobiPressure cfg d p) = (jacobiPressure cfg d)^[k + 1] p
    rw [ih, Function.iterate_succ_apply]

theorem runStages_fail (cfg : SimConfig) (failAt : Stage → Bool) :
    ∀ (l : List Stage) (s : FrameState), (∃ st ∈ l, failAt st = true) →
      ∃ e, runStages cfg failAt l s = Except.error e := by
  intro l
  induction l with
  | nil =>
    intro s h
    rcases h with ⟨st, hmem, _⟩
    exact absurd hmem (List.not_mem_nil st)
  | cons a rest ih =>
    intro s h
    by_cases ha : failAt a = true
    · exact ⟨a, by simp [runStages, ha]⟩
    · have hr : ∃ st ∈ rest, failAt st = true := by
        rcases h with ⟨st, hmem, hst⟩
        rcases List.mem_cons.mp hmem with h1 | h2
        · exact absurd (h1 ▸ hst) ha
        · exact ⟨st, h2, hst⟩
      rcases ih (execStage cfg a s) hr with ⟨e, he⟩
      exact ⟨e, by simp [runStages, ha, he]⟩

theorem runStages_ok (cfg : SimConfig) (failAt : Stage → Bool) :
    ∀ (l : List Stage) (s : FrameState), (∀ st ∈ l, failAt st = false) →
      runStages cfg failAt l s
        = Except.ok (List.foldl (fun t u => execStage cfg u t) s l) := by
  intro l
  induction l with
  | nil => intro s _; rfl
  | cons a rest ih =>
    intro s h
    have ha : failAt a = false := h a (List.mem_cons_self a rest)
    have hrest : ∀ st ∈ rest, failAt st = false := fun st hst => h st (List.mem_cons_of_mem a hst)
    simp [runStages, ha, ih (execStage cfg a s) hrest]

/-- C3: with an inactive pointer the force stage is the identity, and the
    all-zero simulation state is a fixed point of the frame step, so the
    velocity field stays all zero after every subsequent frame. -/
theorem zero_field_fixed_point (cfg : SimConfig) (n : ℕ) :
    (∀ v : VF, applyExternalForce { cfg with pointer := none } v = v)
    ∧ (frameStep { cfg with pointer := none })^[n] zeroState = zeroState
    ∧ ((frameStep { cfg with pointer := none })^[n] zeroState).vel = zeroVF := by
  have hp : ({ cfg with pointer := none } : SimConfig).pointer = none := rfl
  have hit := Function.iterate_fixed (frameStep_zero _ hp) n
  exact ⟨fun v => applyExternalForce_none _ hp v, hit, by rw [hit]; rfl⟩

/-- C4: the pressure stage runs exactly poissonIterations Jacobi passes with no
    early exit (its trace always has iterations plus one entries and it is the
    plain iterate of the Jacobi pass), its initial guess inside the frame is
    the pressure field carried in the state from the previous frame, and on a
    concrete state carrying a nonzero previous pressure the frame result
    differs from the result after resetting that pressure to zero. -/
theorem pressure_warm_start :
    (∀ (cfg : SimConfig) (n : ℕ) (d p : SF), (poissonTrace cfg d n p).length = n + 1)
    ∧ (∀ (cfg : SimConfig) (n : ℕ) (d p : SF),
        solvePressure cfg d n p = (jacobiPressure cfg d)^[n] p)
    ∧ (∀ (cfg : SimConfig) (s : FrameState),
        (frameStep cfg s).pressure = solvePressure cfg
          (computeDivergence cfg
            (diffuseVelocity cfg (applyExternalForce cfg (advectField cfg s.vel))))
          cfg.poissonIterations s.pressure)
    ∧ (frameStep demoCfg demoWarm).pressure 0 0
        ≠ (frameStep demoCfg { demoWarm with pressure := zeroSF }).pressure 0 0 := by
  refine ⟨fun cfg n d p => poissonTrace_length cfg d n p,
    fun cfg n d p => solvePressure_iterate cfg d n p, fun cfg s => rfl, ?_⟩
  have hchain : computeDivergence demoCfg
      (diffuseVelocity demoCfg (applyExternalForce demoCfg (advectField demoCfg zeroVF)))
      = zeroSF := by
    rw [advectField_zero, applyExternalForce_none demoCfg rfl, diffuseVelocity_zero,
      computeDivergence_zero]
  have hL : (frameStep demoCfg demoWarm).pressure
      = solvePressure demoCfg zeroSF demoCfg.poissonIterations demoP := by
    show solvePressure demoCfg
      (computeDivergence demoCfg
        (diffuseVelocity demoCfg (applyExternalForce demoCfg (advectField demoCfg demoWarm.vel))))
      demoCfg.poissonIterations demoWarm.pressure = _
    rw [show demoWarm.vel = zeroVF from rfl, hchain]
    rfl
  have hR : (frameStep demoCfg { demoWarm with pressure := zeroSF }).pressure = zeroSF := by
    show solvePressure demoCfg
      (computeDivergence demoCfg
        (diffuseVelocity demoCfg (applyExternalForce demoCfg (advectField demoCfg demoWarm.vel))))
      demoCfg.poissonIterations zeroSF = _
    rw [show demoWarm.vel = zeroVF from rfl, hchain]
    exact solvePressure_zero demoCfg demoCfg.poissonIterations
  have hval : (frameStep demoCfg demoWarm).pressure 0 0 = 1/2 := by
    rw [hL]
    show jacobiPressure demoCfg zeroSF demoP 0 0 = 1/2
    norm_num [jacobiPressure, sampleS, boundIdx, clampIdx, mirrorIdx, demoCfg, demoP, zeroSF,
      min_def, max_def]
  have hval2 : (frameStep demoCfg { demoWarm with pressure := zeroSF }).pressure 0 0 = 0 := by
    rw [hR]
    rfl
  rw [hval, hval2]
  norm_num

/-- C7: if any stage of the schedule fails, the tick commits nothing and the
    previously committed state stays authoritative; when no stage fails the
    tick is exactly the full frame step, so the next tick from the last good
    state is the only retry path. -/
theorem frame_discard_on_failure (cfg : SimConfig) (failAt : Stage → Bool) (s : FrameState) :
    ((∃ st ∈ stageOrder, failAt st = true) → tick cfg failAt s = s)
    ∧ ((∀ st ∈ stageOrder, failAt st = false) → tick cfg failAt s = frameStep cfg s) := by
  constructor
  · intro h
    rcases runStages_fail cfg failAt stageOrder s h with ⟨e, he⟩
    simp [tick, he]
  · intro h
    simp [tick, runStages_ok cfg failAt stageOrder s h, frameStep]

/-- Witness for C7: a failing viscous stage leaves the committed state intact,
    and a failure-free tick equals the frame step. -/
theorem frame_discard_on_failure_w :
    tick demoCfg failViscous zeroState = zeroState
    ∧ tick demoCfg failNone zeroState = frameStep demoCfg zeroState :=
  ⟨(frame_discard_on_failure demoCfg failViscous zeroState).1 (by decide),
   (frame_discard_on_failure demoCfg failNone zeroState).2 (by decide)⟩

/-- C5 counterexample: the external force stage reads and writes the same
    physical buffer (fbo_vel_1, in place after advection), so the claimed
    invariant fails at that stage. -/
theorem force_stage_not_disjoint : ¬ disjointRW Stage.force := by
  decide

/-- C5 amended: every stage other than the external force stage reads only
    buffers disjoint from the ones it writes. -/
theorem stages_disjoint_except_force (st : Stage) (h : st ≠ Stage.force) : disjointRW st := by
  revert h
  revert st
  decide

/-- Witness for the amended C5 at the advection stage. -/
theorem stages_disjoint_except_force_w :
    Stage.advection ≠ Stage.force ∧ disjointRW Stage.advection :=
  ⟨by decide, stages_disjoint_except_force Stage.advection (by decide)⟩

/-- C2 counterexample: the store setter does not clamp: setting
    viscousIterations to 0 stores 0 (not 1), to 1000 stores 1000 (not 100),
    and the resulting store states for 0 and 1 are different. -/
theorem setter_no_clamp_cex :
    (setViscousIterations 0 initialFluid).viscousIterations = 0
    ∧ (setViscousIterations 1 initialFluid).viscousIterations = 1
    ∧ setViscousIterations 0 initialFluid ≠ setViscousIterations 1 initialFluid
    ∧ (setViscousIterations 1000 initialFluid).viscousIterations = 1000
    ∧ (1000 : ℚ) ≠ 100 := by
  refine ⟨rfl, rfl, ?_, rfl, by norm_num⟩
  intro h
  have h2 := congrArg FluidState.viscousIterations h
  norm_num [setViscousIterations] at h2

/-- C2 amended: writes through the store are never rejected but are stored
    verbatim without clamping; the allowed ranges exist only as the Leva
    control bounds of the ControlPanel, which match the spec ranges. -/
theorem setters_store_verbatim :
    (∀ (v : ℚ) (s : FluidState), (setResolution v s).resolution = v)
    ∧ (∀ (v : ℚ) (s : FluidState), (setDt v s).dt = v)
    ∧ (∀ (v : ℚ) (s : FluidState), (setMouseForce v s).mouseForce = v)
    ∧ (∀ (v : ℚ) (s : FluidState), (setCursorSize v s).cursorSize = v)
    ∧ (∀ (v : ℚ) (s : FluidState), (setViscosity v s).viscosity = v)
    ∧ (∀ (v : ℚ) (s : FluidState), (setPoissonIterations v s).poissonIterations = v)
    ∧ (∀ (v : ℚ) (s : FluidState), (setViscousIterations v s).viscousIterations = v)
    ∧ panelResolution = { lo := 1/10, hi := 1, step := 1/10 }
    ∧ panelDt = { lo := 1/1000, hi := 1/10, step := 1/1000 }
    ∧ panelMouseForce = { lo := 0, hi := 100, step := 1 }
    ∧ panelCursorSize = { lo := 10, hi := 500, step := 10 }
    ∧ panelViscosity = { lo := 0, hi := 100, step := 1 }
    ∧ panelPoissonIterations = { lo := 1, hi := 100, step := 1 }
    ∧ panelViscousIterations = { lo := 1, hi := 100, step := 1 } :=
  ⟨fun _ _ => rfl, fun _ _ => rfl, fun _ _ => rfl, fun _ _ => rfl, fun _ _ => rfl,
   fun _ _ => rfl, fun _ _ => rfl, rfl, rfl, rfl, rfl, rfl, rfl, rfl⟩

/-- C6 counterexample: the render-target width is frozen at the mount-time
    viewport (100 times the literal 0.4 resolution gives 40) and does not track
    the current viewport (whose floored derivation would give 80 at width 200);
    a 1-pixel mount viewport even yields a width below 1. -/
theorem fbo_sizing_cex :
    fboVelWidth 100 200 = 40
    ∧ (Int.floor ((200 : ℚ) * setupResolution) : ℤ) = 80
    ∧ (40 : ℚ) ≠ 80
    ∧ fboVelWidth 1 1 < 1 := by
  refine ⟨by norm_num [fboVelWidth, setupResolution], ?_, by norm_num,
    by norm_num [fboVelWidth, setupResolution]⟩
  norm_num [setupResolution]

/-- C6 amended: buffer dimensions are the mount-time viewport times the
    hard-coded 0.4 resolution, with no flooring and no minimum guard, and they
    never change when the current viewport changes (the render targets are
    memoized with empty dependencies, so no reallocation happens). -/
theorem fbo_sizing_frozen (m c1 c2 : ℚ) :
    fboVelWidth m c1 = fboVelWidth m c2
    ∧ fboVelWidth m c1 = m * (2/5)
    ∧ fboVelHeight m c1 = fboVelHeight m c2
    ∧ fboVelHeight m c1 = m * (2/5) :=
  ⟨rfl, rfl, rfl, rfl⟩
